import Mathlib

/-!
Verification of the Synthetic RoofStatusFile safety monitor.

Shallow embedding of the safety-decision engine (`synthetic_roofstatus.py`:
`calculate_sun_angle`, `is_sun_safe_for_open`, `classify_latest_png`) and of
the ASCOM Alpaca server (`ascom_alpaca_safety.py`: `get_ascom_response`,
`get_request_parameter`, the `connected` endpoint, the catch-all routes, the
error handler, the discovery responder, and one iteration of
`update_safety_status`).

Python floats are modelled by `Rat` (the claims only involve order
comparisons), a raised exception by `none` / `Except.error`, and the
collaborators (file system, classifier model, ephemeris) by explicit fields
of an environment record, so that every function of the source becomes a
total computable Lean function of that environment.
-/

namespace RoofStatus

/-- Environment for one invocation of `classify_latest_png`:
`hasModel` is the truthiness of `self.model`, `isDir` is
`os.path.isdir(folder)`, `files` is `os.listdir(folder)`, `mtime` gives
`os.path.getmtime` for each file, `pred` is the model prediction
(`self.model.predict(...)[0]`) for each file, `predRaises` is a possible
exception raised by `prep_image`/`predict`, `writeRaises` a possible
exception raised when appending to the output file, `sunAngleCalc` the
result of the ephem computation inside `calculate_sun_angle` (`none` when
it raises), and `thresholdCalc` the result of
`float(self.sun_angle_threshold.get())` (`none` when it raises). -/
structure ClassifyEnv where
  hasModel : Bool
  isDir : Bool
  files : List String
  mtime : String → Nat
  predRaises : Option String
  pred : String → Int
  writeRaises : Option String
  sunAngleCalc : Option Rat
  thresholdCalc : Option Rat

/-- `calculate_sun_angle`: returns the computed elevation, or `0.0` when the
computation raises ("Default to 0 if calculation fails"). -/
def calculate_sun_angle (e : ClassifyEnv) : Rat :=
  match e.sunAngleCalc with
  | some a => a
  | none => 0

/-- `is_sun_safe_for_open`: `sun_angle < threshold` with strict comparison;
when the body raises (the threshold lookup/conversion fails) it returns
`True` ("Default to safe if calculation fails").  `calculate_sun_angle`
itself never raises, it catches internally. -/
def is_sun_safe_for_open (e : ClassifyEnv) : Bool :=
  match e.thresholdCalc with
  | some t => decide (calculate_sun_angle e < t)
  | none => true

/-- Python's `str.lower`, modelled character by character (the file names
involved are ASCII, where `Char.toLower` and Python agree). -/
def lowerStr (s : String) : String := String.mk (s.data.map Char.toLower)

/-- Python's `str.endswith`, modelled as a suffix test on the character
lists. -/
def strEndsWith (s suff : String) : Bool := List.isSuffixOf suff.data s.data

/-- The list comprehension
`[f for f in os.listdir(folder) if f.lower().endswith(".png")]`. -/
def pngFiles (e : ClassifyEnv) : List String :=
  e.files.filter (fun f => strEndsWith (lowerStr f) ".png")

/-- `max(pngs, key=mtime)`: Python's `max` keeps the first element with the
maximal key, which the fold with a strict comparison reproduces. -/
def latestPng (e : ClassifyEnv) : Option String :=
  match pngFiles e with
  | [] => none
  | f :: fs => some (fs.foldl (fun acc g => if e.mtime acc < e.mtime g then g else acc) f)

/-- The override annotation appended to the status line. -/
def overrideSuffix : String := " (Sun too high - safety override)"

/-- Result of `classify_latest_png`: `fileName` and `status` are the two
components of the returned pair, `appendedLine` is the line written to the
output file (`none` on the early returns, which write nothing), and
`overrideReason` is the local `override_reason` string (empty when no
override happened, so it doubles as the "overridden" flag). -/
structure ClassifyOutcome where
  fileName : Option String
  status : String
  appendedLine : Option String
  overrideReason : String
deriving DecidableEq

/-- `classify_latest_png`.  Early return `(None, "No model or invalid
folder")` when the model is missing or the folder invalid; early return
`(None, "No PNG files found")` when no PNG is present; otherwise classify
the latest PNG, apply the sun-angle guard rail (raw `OPEN` with
`sun_safe = False` becomes `CLOSED` with the override suffix), append
`"<now> Roof Status: <final><override>\n"` to the output file and return
`(latest, final_status)`.  Exceptions from `prep_image`/`predict` or from
the file append propagate to the caller as `Except.error`. -/
def classify_latest_png (e : ClassifyEnv) (now : String) : Except String ClassifyOutcome :=
  if !e.hasModel || !e.isDir then
    Except.ok ⟨none, "No model or invalid folder", none, ""⟩
  else
    match latestPng e with
    | none => Except.ok ⟨none, "No PNG files found", none, ""⟩
    | some latest =>
      match e.predRaises with
      | some msg => Except.error msg
      | none =>
        let image_status := if e.pred latest == 1 then "OPEN" else "CLOSED"
        let sun_safe := is_sun_safe_for_open e
        let overridden := image_status == "OPEN" && !sun_safe
        let final_status := if overridden then "CLOSED" else image_status
        let override_reason := if overridden then overrideSuffix else ""
        let line := now ++ " Roof Status: " ++ final_status ++ override_reason ++ "\n"
        match e.writeRaises with
        | some msg => Except.error msg
        | none => Except.ok ⟨some latest, final_status, some line, override_reason⟩

/-- Shared device state of the ASCOM server, restricted to the fields the
claims are about: `self.connected`, `self.is_safe`, `self.last_error`. -/
structure DeviceState where
  connected : Bool
  is_safe : Bool
  last_error : String
deriving DecidableEq

/-- Environment for one iteration of the `update_safety_status` loop:
`hasApp` is the truthiness of `self.roof_classifier_app`, `env` and `now`
feed the `classify_latest_png` call of this cycle (the same environment is
also used for the cycle's second `is_sun_safe_for_open` call). -/
structure PollEnv where
  hasApp : Bool
  env : ClassifyEnv
  now : String

/-- One iteration of the `update_safety_status` background loop.  While
connected (and an app is present) it classifies, then sets
`is_safe = (status == "OPEN") and sun_safe`; the string returned by
`classify_latest_png` is always nonempty, so the `if status:` branch is
taken whenever classification returned.  Any exception from the body sets
`is_safe = False` and a `last_error`.  When disconnected (or without an
app) it only sets `is_safe = True`. -/
def update_safety_status (p : PollEnv) (st : DeviceState) : DeviceState :=
  if p.hasApp && st.connected then
    match classify_latest_png p.env p.now with
    | Except.error msg =>
      { st with is_safe := false, last_error := "Error updating safety status: " ++ msg }
    | Except.ok r =>
      if r.status = "" then
        { st with is_safe := false, last_error := "Unable to determine roof status" }
      else
        { st with
            is_safe := decide (r.status = "OPEN") && is_sun_safe_for_open p.env,
            last_error := "" }
  else
    { st with is_safe := true }

/-- The standard ASCOM response envelope
`{Value, ErrorNumber, ErrorMessage, ClientTransactionID?, ServerTransactionID}`.
`Value` is abstracted to `Option String` (the claims below only involve
responses whose `Value` is `None`); `clientTransactionID` is present
exactly when the caller supplied one. -/
structure Envelope where
  value : Option String
  errorNumber : Nat
  errorMessage : String
  clientTransactionID : Option Int
  serverTransactionID : Nat
deriving DecidableEq

/-- `get_ascom_response`: builds the envelope and increments the server
transaction counter (`self._server_transaction_id`, taken to be `counter`
on entry — `0` before the first response); returns the envelope together
with the new counter value. -/
def get_ascom_response (counter : Nat) (ctid : Option Int) (value : Option String)
    (errorNumber : Nat) (errorMessage : String) : Envelope × Nat :=
  (⟨value, errorNumber, errorMessage, ctid, counter + 1⟩, counter + 1)

/-- The `ServerTransactionID`s carried by a sequence of `n` responses, each
produced by `get_ascom_response`, threading the counter from one response
to the next (sequential model). -/
def transaction_ids (counter : Nat) : Nat → List Nat
  | 0 => []
  | n + 1 =>
    let r := get_ascom_response counter none none 0 ""
    r.1.serverTransactionID :: transaction_ids r.2 n

/-- An HTTP response as produced by a Flask handler: a status code and, for
this server, always a JSON envelope body. -/
structure HttpResponse where
  statusCode : Nat
  body : Option Envelope
deriving DecidableEq

/-- The requests the fallback machinery of the server answers: a request
matching the device catch-all route
(`/api/v1/safetymonitor/<device_num>/<endpoint>`), one matching the
top-level catch-all (`/<path>`), or any request whose handler raised an
unhandled exception (routed to the `errorhandler(Exception)` hook). -/
inductive RequestKind where
  | unknownDevice (deviceNum : Nat) (endpoint : String)
  | unknownTop (path : String)
  | handlerRaises (errText : String)

/-- `handle_error`: converts an unhandled exception into
`get_ascom_response(None, 1, str(error)), 500`. -/
def handle_error (counter : Nat) (ctid : Option Int) (errText : String) :
    HttpResponse × Nat :=
  let r := get_ascom_response counter ctid none 1 errText
  (⟨500, some r.1⟩, r.2)

/-- `catch_all_device`: unknown device endpoints get
`get_ascom_response(None, 1, f"Unknown endpoint: {endpoint}")` (HTTP 200,
Flask's default). -/
def catch_all_device (counter : Nat) (ctid : Option Int) (endpoint : String) :
    HttpResponse × Nat :=
  let r := get_ascom_response counter ctid none 1 ("Unknown endpoint: " ++ endpoint)
  (⟨200, some r.1⟩, r.2)

/-- `catch_all`: unknown top-level paths get
`get_ascom_response(None, 1, f"Unknown endpoint: /{path}")` (HTTP 200). -/
def catch_all (counter : Nat) (ctid : Option Int) (path : String) :
    HttpResponse × Nat :=
  let r := get_ascom_response counter ctid none 1 ("Unknown endpoint: /" ++ path)
  (⟨200, some r.1⟩, r.2)

/-- Dispatch of the fallback requests to their handlers. -/
def serve_fallback (counter : Nat) (ctid : Option Int) : RequestKind → HttpResponse × Nat
  | RequestKind.unknownDevice _ ep => catch_all_device counter ctid ep
  | RequestKind.unknownTop p => catch_all counter ctid p
  | RequestKind.handlerRaises msg => handle_error counter ctid msg

/-- A Python value as it can arrive for a request parameter: a JSON boolean,
a JSON number, or a string (form fields and query parameters are always
strings). -/
inductive PyVal where
  | pybool (b : Bool)
  | pyint (n : Int)
  | pystr (s : String)
deriving DecidableEq

/-- Python's `str(value)` for the values above. -/
def pyStr : PyVal → String
  | PyVal.pybool true => "True"
  | PyVal.pybool false => "False"
  | PyVal.pyint n => toString n
  | PyVal.pystr s => s

/-- The three carriers a request parameter can arrive in: the JSON body's
entry for the key, the form field, and the query-string argument (each
`none` when absent). -/
structure RequestCarriers where
  json : Option PyVal
  form : Option String
  args : Option String
deriving DecidableEq

/-- The lookup part of `get_request_parameter`: JSON body first, then form
data, then query parameters. -/
def get_request_parameter_raw (r : RequestCarriers) : Option PyVal :=
  match r.json with
  | some v => some v
  | none =>
    match r.form with
    | some s => some (PyVal.pystr s)
    | none => r.args.map PyVal.pystr

/-- The truthy-string test `str(value).lower() in ('true', '1', 'yes', 'on')`. -/
def str_to_bool (s : String) : Bool :=
  (["true", "1", "yes", "on"] : List String).contains (lowerStr s)

/-- The `param_type == bool` conversion of `get_request_parameter`: a
genuine boolean is returned as-is, anything else goes through the
truthy-string test. -/
def parse_bool_val : PyVal → Bool
  | PyVal.pybool b => b
  | v => str_to_bool (pyStr v)

/-- `get_request_parameter(name, bool)`: lookup followed by the boolean
conversion. -/
def get_request_parameter_bool (r : RequestCarriers) : Option Bool :=
  (get_request_parameter_raw r).map parse_bool_val

/-- The `PUT /api/v1/safetymonitor/{n}/connected` handler: on an exception
inside the body (`exc`), an error envelope; with a `Connected` value, set
`self.connected` and answer `get_ascom_response(None)`; with the parameter
missing from all carriers, log a warning and still answer
`get_ascom_response(None)` (a success envelope).  Returns the new device
state, the envelope, and the new transaction counter. -/
def connected_put (exc : Option String) (r : RequestCarriers) (ctid : Option Int)
    (counter : Nat) (st : DeviceState) : DeviceState × Envelope × Nat :=
  match exc with
  | some msg =>
    let resp := get_ascom_response counter ctid none 1 msg
    (st, resp.1, resp.2)
  | none =>
    match get_request_parameter_bool r with
    | some b =>
      let resp := get_ascom_response counter ctid none 0 ""
      ({ st with connected := b }, resp.1, resp.2)
    | none =>
      let resp := get_ascom_response counter ctid none 0 ""
      (st, resp.1, resp.2)

/-- The discovery announcement sent by the responder. -/
structure DiscoveryAnnouncement where
  alpacaPort : Nat
  serverName : String
  manufacturer : String
  manufacturerVersion : String
  location : String
deriving DecidableEq

/-- The response dictionary built in `discovery_responder` for the server's
configured port. -/
def discovery_response (port : Nat) : DiscoveryAnnouncement :=
  ⟨port, "Synthetic Roof Safety Monitor", "Synthetic Roof Project", "1.0.0", "Observatory"⟩

/-- `json.dumps` of the discovery response dictionary, with the keys in the
insertion order of the source. -/
def discovery_json (d : DiscoveryAnnouncement) : String :=
  "\x7b\"AlpacaPort\": " ++ toString d.alpacaPort
    ++ ", \"ServerName\": \"" ++ d.serverName
    ++ "\", \"Manufacturer\": \"" ++ d.manufacturer
    ++ "\", \"ManufacturerVersion\": \"" ++ d.manufacturerVersion
    ++ "\", \"Location\": \"" ++ d.location ++ "\"\x7d"

/-- The ASCII magic prefix `b"alpacadiscovery1"` of a discovery probe. -/
def discoveryMagic : List Char := "alpacadiscovery1".data

/-- One iteration of the `discovery_responder` loop: given the received
datagram payload and the sender's address, either the reply sent back
(address and JSON payload) or `none` when the datagram is ignored. -/
def discovery_responder (port : Nat) (data : List Char) (addr : String) :
    Option (String × String) :=
  if List.isPrefixOf discoveryMagic data then
    some (addr, discovery_json (discovery_response port))
  else
    none

end RoofStatus

namespace RoofStatus

/-- C6 (confirmed): when both the angle computation and the threshold lookup
succeed, `is_sun_safe_for_open` returns exactly `sunAngle < threshold`,
strictly, and in particular an angle equal to the threshold is not
safe-for-open. -/
theorem c6_sun_safe_strict (e : ClassifyEnv) (a t : Rat)
    (ha : e.sunAngleCalc = some a) (ht : e.thresholdCalc = some t) :
    is_sun_safe_for_open e = decide (a < t)
      ∧ (a = t → is_sun_safe_for_open e = false) := by
  constructor
  · simp [is_sun_safe_for_open, calculate_sun_angle, ha, ht]
  · intro hat
    simp [is_sun_safe_for_open, calculate_sun_angle, ha, ht, hat]

/-- Witness for C6 at a concrete environment with angle 5 and threshold 5. -/
theorem c6_sun_safe_strict_witness :
    is_sun_safe_for_open ⟨true, true, [], fun _ => 0, none, fun _ => 0, none, some 5, some 5⟩
      = decide ((5 : Rat) < 5) := by
  exact (c6_sun_safe_strict _ 5 5 rfl rfl).1

/-- C1 (confirmed): a raw `OPEN` prediction under a successfully computed
sun angle at or above the threshold yields final status `CLOSED`, the
override annotation set, and an appended line ending in the override
suffix (followed by the line's newline terminator). -/
theorem c1_open_overridden_to_closed (e : ClassifyEnv) (now : String) (a t : Rat)
    (latest : String)
    (hm : e.hasModel = true) (hd : e.isDir = true)
    (hl : latestPng e = some latest)
    (hp : e.pred latest = 1)
    (hpr : e.predRaises = none) (hw : e.writeRaises = none)
    (ha : e.sunAngleCalc = some a) (ht : e.thresholdCalc = some t)
    (hge : t ≤ a) :
    ∃ o, classify_latest_png e now = Except.ok o
      ∧ o.status = "CLOSED"
      ∧ o.overrideReason = overrideSuffix
      ∧ ∃ s, o.appendedLine = some (s ++ overrideSuffix ++ "\n") := by
  have hnlt : ¬ (a < t) := not_lt.mpr hge
  have hsafe : is_sun_safe_for_open e = false := by
    simp [is_sun_safe_for_open, calculate_sun_angle, ha, ht, hnlt]
  have hcl : classify_latest_png e now =
      Except.ok ⟨some latest, "CLOSED",
        some (now ++ " Roof Status: " ++ "CLOSED" ++ overrideSuffix ++ "\n"), overrideSuffix⟩ := by
    simp [classify_latest_png, hm, hd, hl, hpr, hw, hp, hsafe]
  exact ⟨_, hcl, rfl, rfl, now ++ " Roof Status: " ++ "CLOSED", rfl⟩

/-- Witness for C1: model loaded, one PNG, prediction 1 (`OPEN`), sun angle
5 against threshold −17. -/
theorem c1_open_overridden_to_closed_witness :
    ∃ o, classify_latest_png
        ⟨true, true, ["roof.png"], fun _ => 0, none, fun _ => 1, none, some 5, some (-17)⟩ "T"
        = Except.ok o
      ∧ o.status = "CLOSED"
      ∧ o.overrideReason = overrideSuffix
      ∧ ∃ s, o.appendedLine = some (s ++ overrideSuffix ++ "\n") :=
  c1_open_overridden_to_closed _ "T" 5 (-17) "roof.png" rfl rfl (by decide) rfl rfl rfl rfl rfl
    (by norm_num)

/-- C2 counterexample: with no PNG files in a valid monitored folder the
call returns `(None, "No PNG files found")` — the status slot holds the
diagnostic message, not the status `CLOSED` the claim asserts. -/
theorem c2_unavailable_counterexample :
    classify_latest_png
        ⟨true, true, [], fun _ => 0, none, fun _ => 1, none, some 5, some (-17)⟩ "T"
      = Except.ok ⟨none, "No PNG files found", none, ""⟩
    ∧ "No PNG files found" ≠ "CLOSED" := by
  constructor
  · rfl
  · decide

/-- C2 (corrected): when the classifier result is undeterminable (no model,
invalid folder, or no PNG files), `classify_latest_png` returns without
raising, carrying `None` in place of a file name and a nonempty diagnostic
message — not the literal status `CLOSED` — in the status slot; the poller
then computes `is_safe = false` (exactly as it would for a `CLOSED` roof)
and clears `last_error`. -/
theorem c2_unavailable_fail_safe (e : ClassifyEnv) (now : String) (st : DeviceState)
    (hc : st.connected = true)
    (h : e.hasModel = false ∨ e.isDir = false ∨ pngFiles e = []) :
    ∃ msg, classify_latest_png e now = Except.ok ⟨none, msg, none, ""⟩
      ∧ msg ≠ "" ∧ msg ≠ "CLOSED"
      ∧ (update_safety_status ⟨true, e, now⟩ st).is_safe = false
      ∧ (update_safety_status ⟨true, e, now⟩ st).last_error = "" := by
  have hcl : classify_latest_png e now = Except.ok ⟨none, "No model or invalid folder", none, ""⟩
      ∨ classify_latest_png e now = Except.ok ⟨none, "No PNG files found", none, ""⟩ := by
    rcases h with h | h | h
    · left; simp [classify_latest_png, h]
    · left; simp [classify_latest_png, h]
    · by_cases hm : e.hasModel = true
      · by_cases hd : e.isDir = true
        · right; simp [classify_latest_png, hm, hd, latestPng, h]
        · left; simp [classify_latest_png, eq_false_of_ne_true hd]
      · left; simp [classify_latest_png, eq_false_of_ne_true hm]
  rcases hcl with hcl | hcl
  · refine ⟨"No model or invalid folder", hcl, by decide, by decide, ?_, ?_⟩
    · simp [update_safety_status, hc, hcl]
    · simp [update_safety_status, hc, hcl]
  · refine ⟨"No PNG files found", hcl, by decide, by decide, ?_, ?_⟩
    · simp [update_safety_status, hc, hcl]
    · simp [update_safety_status, hc, hcl]

/-- Witness for C2 (amended): connected device, valid folder, no PNGs. -/
theorem c2_unavailable_fail_safe_witness :
    ∃ msg, classify_latest_png
        ⟨true, true, ["notes.txt"], fun _ => 0, none, fun _ => 1, none, some 5, some (-17)⟩ "T"
        = Except.ok ⟨none, msg, none, ""⟩
      ∧ msg ≠ "" ∧ msg ≠ "CLOSED"
      ∧ (update_safety_status
          ⟨true, ⟨true, true, ["notes.txt"], fun _ => 0, none, fun _ => 1, none, some 5, some (-17)⟩, "T"⟩
          ⟨true, true, "old"⟩).is_safe = false
      ∧ (update_safety_status
          ⟨true, ⟨true, true, ["notes.txt"], fun _ => 0, none, fun _ => 1, none, some 5, some (-17)⟩, "T"⟩
          ⟨true, true, "old"⟩).last_error = "" :=
  c2_unavailable_fail_safe _ "T" ⟨true, true, "old"⟩ rfl (Or.inr (Or.inr (by decide)))

/-- C3 counterexample: the sun-angle computation fails
(`sunAngleCalc = none`), the threshold is `10`, and the raw classification
is `OPEN`; the code defaults the failed angle to `0.0`, finds
`0.0 < 10` "safe", and keeps the final status `OPEN` — it is not forced to
`CLOSED` as the claim asserts. -/
theorem c3_unsafe_default_counterexample :
    (⟨true, true, ["r.png"], fun _ => 0, none, fun _ => 1, none, none, some 10⟩
        : ClassifyEnv).sunAngleCalc = none
    ∧ is_sun_safe_for_open
        ⟨true, true, ["r.png"], fun _ => 0, none, fun _ => 1, none, none, some 10⟩ = true
    ∧ classify_latest_png
        ⟨true, true, ["r.png"], fun _ => 0, none, fun _ => 1, none, none, some 10⟩ "T"
      = Except.ok ⟨some "r.png", "OPEN", some "T Roof Status: OPEN\n", ""⟩ := by
  refine ⟨rfl, by decide, rfl⟩

/-- C3 (corrected): on a failed computation the code defaults toward
"safe", not "unsafe": if the threshold lookup (and hence the safety check
itself) raises, `is_sun_safe_for_open` returns `true`; if the angle
computation raises, the angle defaults to `0.0` and the check degenerates
to `0.0 < threshold` — so a raw `OPEN` is forced to `CLOSED` only when the
resulting `sunSafeForOpen` is `false`, not unconditionally. -/
theorem c3_calc_error_defaults (e : ClassifyEnv) :
    (e.thresholdCalc = none → is_sun_safe_for_open e = true)
    ∧ (∀ t : Rat, e.sunAngleCalc = none → e.thresholdCalc = some t →
        calculate_sun_angle e = 0 ∧ is_sun_safe_for_open e = decide ((0 : Rat) < t)) := by
  constructor
  · intro h
    simp [is_sun_safe_for_open, h]
  · intro t h1 h2
    constructor
    · simp [calculate_sun_angle, h1]
    · simp [is_sun_safe_for_open, calculate_sun_angle, h1, h2]

/-- Witness for C3 (amended): one environment whose threshold lookup fails
and one whose angle computation fails. -/
theorem c3_calc_error_defaults_witness :
    is_sun_safe_for_open ⟨true, true, [], fun _ => 0, none, fun _ => 0, none, some 5, none⟩ = true
    ∧ (calculate_sun_angle ⟨true, true, [], fun _ => 0, none, fun _ => 0, none, none, some 10⟩ = 0
       ∧ is_sun_safe_for_open ⟨true, true, [], fun _ => 0, none, fun _ => 0, none, none, some 10⟩
           = decide ((0 : Rat) < 10)) :=
  ⟨(c3_calc_error_defaults _).1 rfl, (c3_calc_error_defaults _).2 10 rfl rfl⟩

/-- Auxiliary: the transaction IDs of `n` sequential responses starting
from counter `c` are `c+1, c+2, …, c+n`. -/
theorem transaction_ids_eq (n : Nat) (c : Nat) :
    transaction_ids c n = (List.range n).map (fun i => c + 1 + i) := by
  induction n generalizing c with
  | zero => rfl
  | succ n ih =>
    rw [List.range_succ_eq_map]
    simp only [transaction_ids, get_ascom_response, ih, List.map_cons, List.map_map]
    refine congrArg₂ _ (by omega) ?_
    refine List.map_congr_left fun i _ => ?_
    simp [Function.comp]
    omega

/-- C4 (confirmed): across any sequence of `N ≥ 1` responses of the
sequential server model, the first `ServerTransactionID` is `1`, each
subsequent one is exactly one greater than its predecessor, and the whole
sequence is strictly increasing (hence repeat-free). -/
theorem c4_server_transaction_ids (n : Nat) (hn : 1 ≤ n) :
    (transaction_ids 0 n).head? = some 1
    ∧ (∀ i : Nat, i + 1 < n →
        (transaction_ids 0 n).get? (i + 1) = ((transaction_ids 0 n).get? i).map (· + 1))
    ∧ (transaction_ids 0 n).Pairwise (· < ·) := by
  refine ⟨?_, ?_, ?_⟩
  · match n, hn with
    | n + 1, _ => rfl
  · intro i hi
    rw [transaction_ids_eq]
    rw [List.get?_map, List.get?_map, List.get?_range hi, List.get?_range (by omega)]
    simp
    omega
  · rw [transaction_ids_eq]
    exact (List.pairwise_lt_range n).map _ (fun a b h => by omega)

/-- Witness for C4 at `N = 3`. -/
theorem c4_server_transaction_ids_witness :
    (transaction_ids 0 3).head? = some 1
    ∧ (∀ i : Nat, i + 1 < 3 →
        (transaction_ids 0 3).get? (i + 1) = ((transaction_ids 0 3).get? i).map (· + 1))
    ∧ (transaction_ids 0 3).Pairwise (· < ·) :=
  c4_server_transaction_ids 3 (by decide)

/-- C5 (confirmed): while the device is disconnected, one poll cycle only
sets `is_safe = True` — the rest of the state is untouched and the
decision logic (which runs the classifier environment) is never consulted,
whatever that environment would have reported. -/
theorem c5_disconnected_forces_safe (p : PollEnv) (st : DeviceState)
    (h : st.connected = false) :
    update_safety_status p st = { st with is_safe := true } := by
  simp [update_safety_status, h]

/-- Witness for C5: disconnected device, while the classifier environment
of the cycle would have reported raw `OPEN` (prediction 1) with an unsafe
sun angle (5 against threshold −17). -/
theorem c5_disconnected_forces_safe_witness :
    update_safety_status
      ⟨true, ⟨true, true, ["roof.png"], fun _ => 0, none, fun _ => 1, none, some 5, some (-17)⟩, "T"⟩
      ⟨false, false, "e"⟩
      = ⟨false, true, "e"⟩ :=
  c5_disconnected_forces_safe _ _ rfl

/-- C7 (confirmed): every request handled by the fallback machinery —
unknown device endpoint, unknown top-level path, or a handler that raised —
is answered with a well-formed envelope carrying `ErrorNumber = 1` and the
descriptive message of its case, never with a bare (body-less) response;
the HTTP status is 200 for the catch-alls and 500 for the exception
handler, never 404. -/
theorem c7_fallback_envelope (counter : Nat) (ctid : Option Int) (k : RequestKind) :
    ∃ env, (serve_fallback counter ctid k).1.body = some env
      ∧ env.errorNumber = 1
      ∧ (serve_fallback counter ctid k).1.statusCode ≠ 404
      ∧ ((serve_fallback counter ctid k).1.statusCode = 200
         ∨ (serve_fallback counter ctid k).1.statusCode = 500)
      ∧ env.errorMessage = (match k with
          | RequestKind.unknownDevice _ ep => "Unknown endpoint: " ++ ep
          | RequestKind.unknownTop p => "Unknown endpoint: /" ++ p
          | RequestKind.handlerRaises m => m) := by
  cases k with
  | unknownDevice d ep =>
    refine ⟨⟨none, 1, "Unknown endpoint: " ++ ep, ctid, counter + 1⟩, rfl, rfl, ?_, Or.inl rfl, rfl⟩
    show (200 : Nat) ≠ 404
    decide
  | unknownTop p =>
    refine ⟨⟨none, 1, "Unknown endpoint: /" ++ p, ctid, counter + 1⟩, rfl, rfl, ?_, Or.inl rfl, rfl⟩
    show (200 : Nat) ≠ 404
    decide
  | handlerRaises m =>
    refine ⟨⟨none, 1, m, ctid, counter + 1⟩, rfl, rfl, ?_, Or.inr rfl, rfl⟩
    show (500 : Nat) ≠ 404
    decide

/-- C8 (confirmed): a datagram is answered — with the JSON-encoded
announcement carrying the configured port, sent to the sender's address —
exactly when its payload starts with the ASCII bytes
`alpacadiscovery1`; any other payload produces no reply. -/
theorem c8_discovery_magic_iff (port : Nat) (data : List Char) (addr : String) :
    (List.isPrefixOf discoveryMagic data = true →
       discovery_responder port data addr
         = some (addr, discovery_json (discovery_response port)))
    ∧ (List.isPrefixOf discoveryMagic data = false →
       discovery_responder port data addr = none) := by
  constructor <;> intro h <;> simp [discovery_responder, h]

/-- Witness for C8: a probe with the magic prefix (and a trailing byte)
gets the announcement; the payload `hello` gets nothing. -/
theorem c8_discovery_magic_iff_witness :
    discovery_responder 11111 "alpacadiscovery1x".data "192.0.2.7"
      = some ("192.0.2.7", discovery_json (discovery_response 11111))
    ∧ discovery_responder 11111 "hello".data "192.0.2.7" = none :=
  ⟨(c8_discovery_magic_iff 11111 _ "192.0.2.7").1 (by decide),
   (c8_discovery_magic_iff 11111 _ "192.0.2.7").2 (by decide)⟩

/-- C9 counterexample: a PUT to `connected` with the `Connected` parameter
missing from the JSON body, the form data and the query string is answered
with a success envelope (`ErrorNumber = 0`), not with the `ErrorNumber = 1`
parameter error the claim asserts. -/
theorem c9_missing_connected_counterexample :
    (connected_put none ⟨none, none, none⟩ none 0 ⟨false, true, ""⟩).2.1.errorNumber = 0
    ∧ ¬ (connected_put none ⟨none, none, none⟩ none 0 ⟨false, true, ""⟩).2.1.errorNumber = 1 :=
  ⟨rfl, by decide⟩

/-- C9 (corrected): when the `Connected` parameter is absent from all three
carriers, the handler leaves the device state unchanged, logs a warning,
and returns the plain success envelope `(None, 0, "")` — the missing
parameter is not surfaced as an error. -/
theorem c9_missing_connected_success (r : RequestCarriers) (ctid : Option Int)
    (counter : Nat) (st : DeviceState)
    (hj : r.json = none) (hf : r.form = none) (ha : r.args = none) :
    connected_put none r ctid counter st
      = (st, ⟨none, 0, "", ctid, counter + 1⟩, counter + 1) := by
  have hb : get_request_parameter_bool r = none := by
    simp [get_request_parameter_bool, get_request_parameter_raw, hj, hf, ha]
  simp [connected_put, hb, get_ascom_response]

/-- Witness for C9 (amended): all three carriers empty. -/
theorem c9_missing_connected_success_witness :
    connected_put none ⟨none, none, none⟩ none 0 ⟨false, true, "e"⟩
      = (⟨false, true, "e"⟩, ⟨none, 0, "", none, 0 + 1⟩, 0 + 1) :=
  c9_missing_connected_success _ none 0 _ rfl rfl rfl

/-- Auxiliary: the boolean conversion agrees with the truthy-string test on
every value — a genuine boolean's string form (`True`/`False`) lowers to
`true`/`false`, of which only `true` is in the truthy list. -/
theorem parse_bool_val_eq (v : PyVal) : parse_bool_val v = str_to_bool (pyStr v) := by
  cases v with
  | pybool b => cases b <;> decide
  | pyint n => rfl
  | pystr s => rfl

/-- C10 (confirmed): when some `Connected` value is supplied, the new
`connected` flag is exactly the truthy-string test
`str(value).lower() in ('true', '1', 'yes', 'on')` of the supplied value
(a genuine boolean passes through unchanged, which coincides with the
test on its string form), and the response is a success envelope with
`ErrorNumber = 0` whatever the value was. -/
theorem c10_connected_value_parsing (r : RequestCarriers) (ctid : Option Int)
    (counter : Nat) (st : DeviceState) (v : PyVal)
    (hv : get_request_parameter_raw r = some v) :
    connected_put none r ctid counter st
      = ({ st with connected := str_to_bool (pyStr v) },
         ⟨none, 0, "", ctid, counter + 1⟩, counter + 1) := by
  have hb : get_request_parameter_bool r = some (str_to_bool (pyStr v)) := by
    rw [get_request_parameter_bool, hv]
    exact congrArg some (parse_bool_val_eq v)
  simp [connected_put, hb, get_ascom_response]

/-- Witness for C10: the supplied value `garbage` sets `connected` to
`false` (its lowercase form is not a truthy string) and is still answered
with `ErrorNumber = 0`. -/
theorem c10_connected_value_parsing_witness :
    connected_put none ⟨none, some "garbage", none⟩ none 0 ⟨true, true, "e"⟩
      = (⟨str_to_bool (pyStr (PyVal.pystr "garbage")), true, "e"⟩,
         ⟨none, 0, "", none, 0 + 1⟩, 0 + 1)
    ∧ str_to_bool "garbage" = false :=
  ⟨c10_connected_value_parsing _ none 0 _ (PyVal.pystr "garbage") rfl, by decide⟩

end RoofStatus
